import Mathlib

/-!
Verification of the video-to-GIF conversion core (`src/main.py`).

The development shallowly embeds `GIFConverter.convert_to_gif`,
`GIFConverter.validate_video` and the `QUALITY_SETTINGS` table.  Times are
embedded as exact rationals (the Python source computes with floats on the
same formulas).  The decode collaborator (`moviepy.VideoFileClip`) and the
encode collaborator (`write_gif`) are black-box services and are embedded as
parameters: a clip record carrying a duration and a frame getter, and a
function describing whether a given `write_gif` invocation raises.  The body
of the Python `try:` block is embedded as `convertBody`, which returns the
raised exception (if any) together with a trace of the collaborator calls the
control flow reached; `convert_to_gif` applies the `except` handler, which
maps every exception to `None`.
-/

/-- Model of `numpy.arange(start, stop, step)` over exact rationals: the
values `start + i * step` for `0 ≤ i < ⌈(stop - start) / step⌉`. -/
def arange (start stop step : ℚ) : List ℚ :=
  (List.range (⌈(stop - start) / step⌉).toNat).map (fun i : ℕ => start + (i : ℚ) * step)

/-- Model of Python's `int(...)` applied to a number: truncation toward zero. -/
def pyInt (q : ℚ) : ℤ := if 0 ≤ q then ⌊q⌋ else ⌈q⌉

/-- The sampling timestamps computed at `src/main.py:74-77`:
`end_time = min(start_time + duration, clip.duration)` followed by
`sample_times = np.arange(start_time, end_time, sample_interval)`. -/
def captureTimes (clipDuration start_time duration sample_interval : ℚ) : List ℚ :=
  arange start_time (min (start_time + duration) clipDuration) sample_interval

/-- Modelled decode collaborator: the object returned by
`mp.VideoFileClip(video_path)`.  `duration` is the source length in seconds;
`get_frame t` returns a frame image, or the message of the exception it
raises.  Frame images are opaque (type parameter `α`). -/
structure VideoFileClip (α : Type) where
  duration : ℚ
  get_frame : ℚ → Except String α

/-- The argument record of the `sampled_clip.write_gif(...)` invocation at
`src/main.py:101-107`. -/
structure WriteGifCall (α : Type) where
  path : String
  fps : ℚ
  opt : Option String
  loop : ℕ
  frames : List α
deriving DecidableEq

/-- The Python exceptions that can be raised inside the `try:` block of
`convert_to_gif`, by raise site:
* `valueError`: the explicit `raise ValueError(...)` at `src/main.py:72`;
* `decodeError`: `clip.get_frame(t)` raised (line 82);
* `zeroDivisionError`: `1/playback_interval` with a zero interval (line 86);
* `indexError`: `mp.ImageSequenceClip` raised on an empty frame list (line 85);
* `keyError`: `QUALITY_SETTINGS[quality]` with an unknown key (line 96);
* `writeGifError`: the `write_gif` encode call raised (line 101). -/
inductive ConvError where
  | valueError (msg : String)
  | decodeError (msg : String)
  | zeroDivisionError
  | indexError (msg : String)
  | keyError (key : String)
  | writeGifError (msg : String)
deriving DecidableEq

/-- One run of the `try:` block of `convert_to_gif`: the result (returned
path or raised exception) together with a trace of the collaborator calls
that control flow reached. -/
structure ConvRun (α : Type) where
  /-- timestamps passed to `clip.get_frame`, in call order -/
  getFrameCalls : List ℚ
  /-- the `(frames, fps)` argument of the `mp.ImageSequenceClip` call, when
  control reaches it -/
  imageSequenceClipCall : Option (List α × ℚ)
  /-- the argument record of the `write_gif` call, when control reaches it -/
  writeGifCall : Option (WriteGifCall α)
  /-- the returned path, or the exception raised inside the `try:` block -/
  result : Except ConvError String

/-- The `QUALITY_SETTINGS` class attribute (`src/main.py:38-43`): an
association table from quality name to the `opt` encoder option
(`None` embedded as `none`). -/
def QUALITY_SETTINGS : List (String × Option String) :=
  [("Best", some ("-lossless")), ("Good", none), ("Medium", none), ("Low", none)]

/-- The loop flag computed at `src/main.py:99`:
`loop = 0 if repeat == "Repeat" else 1`. -/
def loopFlag (repeat_choice : String) : ℕ :=
  if repeat_choice = ("Repeat" : String) then 0 else 1

/-- The output path built at `src/main.py:89-93`:
`temp_gifs/output_{int(start_time)}_{int(duration)}.gif`. -/
def output_path (start_time duration : ℚ) : String :=
  ("temp_gifs/output_" : String) ++ toString (pyInt start_time) ++ ("_" : String)
    ++ toString (pyInt duration) ++ (".gif" : String)

/-- Modelled encode-side collaborator: `mp.ImageSequenceClip(frames, fps=...)`.
With an empty sequence the constructor indexes `sequence[0]` and raises
`IndexError`; otherwise it returns the clip (embedded as its arguments). -/
def imageSequenceClip {α : Type} (frames : List α) (fps : ℚ) :
    Except String (List α × ℚ) :=
  if frames.isEmpty then Except.error ("list index out of range")
  else Except.ok (frames, fps)

/-- The frame-fetch loop at `src/main.py:80-82`: call `clip.get_frame(t)` for
each timestamp in order, stopping at the first exception.  Returns the
timestamps actually passed to `get_frame` and either the collected frames or
the first exception message. -/
def decodeLoop {α : Type} (clip : VideoFileClip α) :
    List ℚ → List ℚ × Except String (List α)
  | [] => ([], Except.ok [])
  | t :: ts =>
    match clip.get_frame t with
    | Except.error msg => ([t], Except.error msg)
    | Except.ok f =>
      match decodeLoop clip ts with
      | (called, Except.error msg) => (t :: called, Except.error msg)
      | (called, Except.ok fs) => (t :: called, Except.ok (f :: fs))

/-- The argument record the code assembles for `sampled_clip.write_gif`
(`src/main.py:92-107`): the output path, `fps=1/playback_interval`, the
`opt` entry looked up from `QUALITY_SETTINGS`, the loop flag, and the
sampled frames. -/
def mkWriteGifCall {α : Type} (start_time duration playback_interval : ℚ)
    (settings_opt : Option String) (repeat_choice : String)
    (frames : List α) : WriteGifCall α :=
  { path := output_path start_time duration,
    fps := 1 / playback_interval,
    opt := settings_opt,
    loop := loopFlag repeat_choice,
    frames := frames }

/-- The body of the `try:` block of `GIFConverter.convert_to_gif`
(`src/main.py:68-109`), instrumented with the trace of collaborator calls.
`clip` is the already-opened `mp.VideoFileClip(video_path)`; `writeGifRun`
describes the encode collaborator: for a given `write_gif` argument record it
returns the message of the exception it raises, or `none` on success. -/
def convertBody {α : Type} (clip : VideoFileClip α)
    (writeGifRun : WriteGifCall α → Option String)
    (start_time duration sample_interval playback_interval : ℚ)
    (quality repeat_choice : String) : ConvRun α :=
  if start_time ≥ clip.duration then
    { getFrameCalls := [], imageSequenceClipCall := none, writeGifCall := none,
      result := Except.error (ConvError.valueError ("Start time exceeds video duration")) }
  else
    match decodeLoop clip (captureTimes clip.duration start_time duration sample_interval) with
    | (called, Except.error msg) =>
      { getFrameCalls := called, imageSequenceClipCall := none, writeGifCall := none,
        result := Except.error (ConvError.decodeError msg) }
    | (called, Except.ok frames) =>
      if playback_interval = 0 then
        { getFrameCalls := called, imageSequenceClipCall := none, writeGifCall := none,
          result := Except.error ConvError.zeroDivisionError }
      else
        match imageSequenceClip frames (1 / playback_interval) with
        | Except.error msg =>
          { getFrameCalls := called,
            imageSequenceClipCall := some (frames, 1 / playback_interval),
            writeGifCall := none,
            result := Except.error (ConvError.indexError msg) }
        | Except.ok _sampled_clip =>
          match QUALITY_SETTINGS.lookup quality with
          | none =>
            { getFrameCalls := called,
              imageSequenceClipCall := some (frames, 1 / playback_interval),
              writeGifCall := none,
              result := Except.error (ConvError.keyError quality) }
          | some settings_opt =>
            match writeGifRun (mkWriteGifCall start_time duration
                playback_interval settings_opt repeat_choice frames) with
            | some msg =>
              { getFrameCalls := called,
                imageSequenceClipCall := some (frames, 1 / playback_interval),
                writeGifCall := some (mkWriteGifCall start_time duration
                  playback_interval settings_opt repeat_choice frames),
                result := Except.error (ConvError.writeGifError msg) }
            | none =>
              { getFrameCalls := called,
                imageSequenceClipCall := some (frames, 1 / playback_interval),
                writeGifCall := some (mkWriteGifCall start_time duration
                  playback_interval settings_opt repeat_choice frames),
                result := Except.ok (output_path start_time duration) }

/-- `GIFConverter.convert_to_gif` (`src/main.py:56-118`): run the `try:`
block; the `except Exception` handler (lines 111-113) maps every raised
exception to `None`, a success returns the output path. -/
def convert_to_gif {α : Type} (clip : VideoFileClip α)
    (writeGifRun : WriteGifCall α → Option String)
    (start_time duration sample_interval playback_interval : ℚ)
    (quality repeat_choice : String) : Option String :=
  match (convertBody clip writeGifRun start_time duration sample_interval
      playback_interval quality repeat_choice).result with
  | Except.ok path => some path
  | Except.error _ => none

/-- `GIFConverter.validate_video` (`src/main.py:45-54`).  The source reads
only `video_file` being `None` and `video_file.size`, so the uploaded file is
embedded as `Option ℕ` carrying its size in bytes; the function is pure (it
never writes to the file). -/
def validate_video (video_file : Option ℕ) : Bool × String :=
  match video_file with
  | none => (false, ("Please upload a video file." : String))
  | some size =>
    if size > 200 * 1024 * 1024 then
      (false, ("File size too large. Please upload a video smaller than 200MB." : String))
    else
      (true, ("" : String))

/-- A 10-second clip whose decoder always succeeds (frames are `0`). -/
def demoClip : VideoFileClip ℕ :=
  { duration := 10, get_frame := fun _ => Except.ok 0 }

/-- A 10-second clip whose decoder always raises. -/
def failClip : VideoFileClip ℕ :=
  { duration := 10, get_frame := fun _ => Except.error ("decode failed") }

/-- An encode collaborator whose `write_gif` never raises. -/
def noErr : WriteGifCall ℕ → Option String := fun _ => none

/-! ### Arithmetic facts about the sampling sequence -/

lemma arange_length (s e Δ : ℚ) : (arange s e Δ).length = (⌈(e - s) / Δ⌉).toNat := by
  rw [arange, List.length_map, List.length_range]

lemma mem_arange {s e Δ t : ℚ} (hΔ : 0 < Δ) :
    t ∈ arange s e Δ ↔ ∃ k : ℕ, t = s + (k : ℚ) * Δ ∧ t < e := by
  rw [arange]
  constructor
  · intro ht
    obtain ⟨i, hi, hit⟩ := List.mem_map.mp ht
    have hir := List.mem_range.mp hi
    have h1 : ((i : ℤ) : ℚ) < (e - s) / Δ := Int.lt_ceil.mp (Int.lt_toNat.mp hir)
    have h2 : (i : ℚ) * Δ < e - s := by
      have h3 := (lt_div_iff₀ hΔ).mp (by exact_mod_cast h1)
      linarith
    exact ⟨i, hit.symm, by rw [← hit]; linarith⟩
  · rintro ⟨k, rfl, hk⟩
    apply List.mem_map.mpr
    have h1 : (k : ℚ) * Δ < e - s := by linarith
    have h2 : ((k : ℤ) : ℚ) < (e - s) / Δ := by
      rw [lt_div_iff₀ hΔ]
      exact_mod_cast h1
    exact ⟨k, List.mem_range.mpr (Int.lt_toNat.mpr (Int.lt_ceil.mpr h2)), rfl⟩

lemma arange_pairwise {s e Δ : ℚ} (hΔ : 0 < Δ) :
    (arange s e Δ).Pairwise (· < ·) := by
  rw [arange]
  refine List.Pairwise.map (fun i : ℕ => s + (i : ℚ) * Δ)
    (fun a b hab => ?_) (List.pairwise_lt_range _)
  show s + (a : ℚ) * Δ < s + (b : ℚ) * Δ
  have hm : (a : ℚ) * Δ < (b : ℚ) * Δ :=
    mul_lt_mul_of_pos_right (by exact_mod_cast hab) hΔ
  linarith

lemma arange_head {s e Δ : ℚ} (hΔ : 0 < Δ) (h : s < e) :
    (arange s e Δ).head? = some s := by
  have hpos : 0 < ⌈(e - s) / Δ⌉ := Int.ceil_pos.mpr (div_pos (by linarith) hΔ)
  have hn : ∃ n, (⌈(e - s) / Δ⌉).toNat = n + 1 := by
    have : 0 < (⌈(e - s) / Δ⌉).toNat := by omega
    exact ⟨(⌈(e - s) / Δ⌉).toNat - 1, by omega⟩
  obtain ⟨n, hn⟩ := hn
  unfold arange
  rw [hn, List.range_succ_eq_map]
  simp

/-- C1: with a valid window (`start_time < source.duration`) and a positive
requested duration and sample interval, the capture timestamps of
`convert_to_gif` are exactly the values `start_time + k * sample_interval`
strictly below `effective_end = min(start_time + duration, source.duration)`;
they are strictly increasing, the first is exactly `start_time`, and their
count is `⌈(effective_end - start_time) / sample_interval⌉`. -/
theorem sampling_arithmetic_spec (srcDur s d Δ : ℚ)
    (hs : s < srcDur) (hd : 0 < d) (hΔ : 0 < Δ) :
    (∀ t, t ∈ captureTimes srcDur s d Δ ↔
        ∃ k : ℕ, t = s + (k : ℚ) * Δ ∧ t < min (s + d) srcDur) ∧
    (captureTimes srcDur s d Δ).Pairwise (· < ·) ∧
    (captureTimes srcDur s d Δ).head? = some s ∧
    ((captureTimes srcDur s d Δ).length : ℤ) = ⌈(min (s + d) srcDur - s) / Δ⌉ := by
  have he : s < min (s + d) srcDur := lt_min (by linarith) hs
  refine ⟨fun t => mem_arange hΔ, arange_pairwise hΔ, arange_head hΔ he, ?_⟩
  rw [show captureTimes srcDur s d Δ = arange s (min (s + d) srcDur) Δ from rfl,
    arange_length]
  exact Int.toNat_of_nonneg (le_of_lt (Int.ceil_pos.mpr (div_pos (by linarith) hΔ)))

/-- Witness for C1: the spec's end-to-end scenario 1 (source duration 10,
start 0, duration 3, sample interval 1/2). -/
theorem sampling_arithmetic_spec_witness :
    (0 : ℚ) < 3 ∧ (0 : ℚ) < 1 / 2 ∧ (0 : ℚ) < 10 ∧
    (captureTimes 10 0 3 (1 / 2)).head? = some 0 ∧
    ((captureTimes 10 0 3 (1 / 2)).length : ℤ) = ⌈(min ((0 : ℚ) + 3) 10 - 0) / (1 / 2)⌉ := by
  have h := sampling_arithmetic_spec 10 0 3 (1 / 2)
    (by norm_num) (by norm_num) (by norm_num)
  exact ⟨by norm_num, by norm_num, by norm_num, h.2.2.1, h.2.2.2⟩

/-! ### Inversion helpers for `convertBody` -/

lemma imageSequenceClip_ok {α : Type} {fr : List α} {fps : ℚ} {sc : List α × ℚ}
    (h : imageSequenceClip fr fps = Except.ok sc) : fr ≠ [] := by
  unfold imageSequenceClip at h
  split at h
  · simp at h
  · rename_i hne
    exact fun hc => hne (List.isEmpty_iff.mpr hc)

lemma convertBody_writeGifCall_inv {α : Type} (clip : VideoFileClip α)
    (writeGifRun : WriteGifCall α → Option String)
    (s d Δ p : ℚ) (q r : String) (call : WriteGifCall α)
    (h : (convertBody clip writeGifRun s d Δ p q r).writeGifCall = some call) :
    call.path = output_path s d ∧ call.fps = 1 / p ∧ call.loop = loopFlag r ∧
    QUALITY_SETTINGS.lookup q = some call.opt ∧ call.frames ≠ [] ∧ p ≠ 0 := by
  unfold convertBody at h
  split at h
  · simp at h
  · split at h
    · simp at h
    · split at h
      · simp at h
      · rename_i hp
        split at h
        · simp at h
        · rename_i sc hclip
          split at h
          · simp at h
          · rename_i settings hq
            split at h
            all_goals
              dsimp only at h
              injection h with h
              subst h
              exact ⟨rfl, rfl, rfl, hq, imageSequenceClip_ok hclip, hp⟩

lemma convertBody_result_ok_inv {α : Type} (clip : VideoFileClip α)
    (writeGifRun : WriteGifCall α → Option String)
    (s d Δ p : ℚ) (q r : String) (path : String)
    (h : (convertBody clip writeGifRun s d Δ p q r).result = Except.ok path) :
    ∃ call : WriteGifCall α,
      (convertBody clip writeGifRun s d Δ p q r).writeGifCall = some call ∧
      path = call.path ∧ writeGifRun call = none := by
  unfold convertBody at h ⊢
  split at h
  · simp at h
  · rename_i hwin
    split at h
    · simp at h
    · rename_i called fs heqdec
      split at h
      · simp at h
      · rename_i hp
        split at h
        · simp at h
        · rename_i sc hclip
          split at h
          · simp at h
          · rename_i settings hq
            split at h
            · simp at h
            · rename_i hw
              dsimp only at h
              injection h with h
              subst h
              refine ⟨_, ?_, rfl, hw⟩
              simp only [if_neg hwin, heqdec, if_neg hp, hclip, hq, hw]

/-- C2: whenever `start_time ≥ source.duration`, `convert_to_gif` raises the
`ValueError("Start time exceeds video duration")` (the `InvalidWindow`
failure), invokes no collaborator, and produces no output artifact: the
caller receives `None`. -/
theorem invalid_window_spec {α : Type} (clip : VideoFileClip α)
    (writeGifRun : WriteGifCall α → Option String)
    (s d Δ p : ℚ) (q r : String) (h : s ≥ clip.duration) :
    (convertBody clip writeGifRun s d Δ p q r).result =
      Except.error (ConvError.valueError ("Start time exceeds video duration")) ∧
    (convertBody clip writeGifRun s d Δ p q r).getFrameCalls = [] ∧
    (convertBody clip writeGifRun s d Δ p q r).imageSequenceClipCall = none ∧
    (convertBody clip writeGifRun s d Δ p q r).writeGifCall = none ∧
    convert_to_gif clip writeGifRun s d Δ p q r = none := by
  unfold convert_to_gif convertBody
  rw [if_pos h]
  exact ⟨rfl, rfl, rfl, rfl, rfl⟩

/-- Witness for C2: the spec's scenario 3 (`start_time = 5` on a 5-second
source, embedded with a frame getter that always succeeds). -/
theorem invalid_window_spec_witness :
    convert_to_gif ({ duration := 5, get_frame := fun _ => Except.ok 0 } :
      VideoFileClip ℕ) noErr 5 3 (1 / 2) (1 / 5) ("Best") ("Repeat") = none :=
  (invalid_window_spec _ noErr 5 3 (1 / 2) (1 / 5) ("Best") ("Repeat")
    (by norm_num)).2.2.2.2

/-! ### Evaluation of concrete runs -/

lemma convertBody_success_eval {α : Type} (clip : VideoFileClip α)
    (writeGifRun : WriteGifCall α → Option String)
    (s d Δ p : ℚ) (q r : String) (ts : List ℚ) (fs : List α)
    (settings : Option String)
    (hwin : ¬ s ≥ clip.duration)
    (hts : captureTimes clip.duration s d Δ = ts)
    (hdec : decodeLoop clip ts = (ts, Except.ok fs))
    (hp : ¬ p = 0)
    (hfs : fs.isEmpty = false)
    (hq : QUALITY_SETTINGS.lookup q = some settings)
    (hw : writeGifRun (mkWriteGifCall s d p settings r fs) = none) :
    convertBody clip writeGifRun s d Δ p q r =
      { getFrameCalls := ts,
        imageSequenceClipCall := some (fs, 1 / p),
        writeGifCall := some (mkWriteGifCall s d p settings r fs),
        result := Except.ok (output_path s d) } := by
  have himg : imageSequenceClip fs (1 / p) = Except.ok (fs, 1 / p) := by
    unfold imageSequenceClip
    rw [hfs]
    rfl
  unfold convertBody
  simp only [if_neg hwin, hts, hdec, if_neg hp, himg, hq, hw]

lemma demo_captureTimes1 :
    captureTimes demoClip.duration 0 3 (1 / 2) = [0, 1 / 2, 1, 3 / 2, 2, 5 / 2] := by
  show arange 0 (min ((0 : ℚ) + 3) 10) (1 / 2) = _
  rw [show min ((0 : ℚ) + 3) 10 = 3 by norm_num]
  rw [arange, show (⌈((3 : ℚ) - 0) / (1 / 2)⌉) = 6 from Int.ceil_eq_iff.mpr (by norm_num)]
  simp [List.range_succ]
  norm_num

lemma demo_run1 :
    convertBody demoClip noErr 0 3 (1 / 2) (1 / 5) ("Best") ("Repeat") =
      { getFrameCalls := [0, 1 / 2, 1, 3 / 2, 2, 5 / 2],
        imageSequenceClipCall := some ([0, 0, 0, 0, 0, 0], 1 / (1 / 5)),
        writeGifCall := some (mkWriteGifCall 0 3 (1 / 5) (some ("-lossless"))
          ("Repeat") [0, 0, 0, 0, 0, 0]),
        result := Except.ok (output_path 0 3) } := by
  refine convertBody_success_eval demoClip noErr 0 3 (1 / 2) (1 / 5) ("Best") ("Repeat")
    [0, 1 / 2, 1, 3 / 2, 2, 5 / 2] [0, 0, 0, 0, 0, 0] (some ("-lossless"))
    ?_ demo_captureTimes1 ?_ ?_ ?_ ?_ ?_
  · show ¬ ((0 : ℚ) ≥ 10)
    norm_num
  · simp [decodeLoop, demoClip]
  · norm_num
  · rfl
  · rfl
  · rfl

lemma demo_captureTimes2 :
    captureTimes demoClip.duration 0 (7 / 2) 1 = [0, 1, 2, 3] := by
  show arange 0 (min ((0 : ℚ) + 7 / 2) 10) 1 = _
  rw [show min ((0 : ℚ) + 7 / 2) 10 = 7 / 2 by norm_num]
  rw [arange, show (⌈((7 / 2 : ℚ) - 0) / 1⌉) = 4 from Int.ceil_eq_iff.mpr (by norm_num)]
  simp [List.range_succ]

lemma demo_run2 :
    convertBody demoClip noErr 0 (7 / 2) 1 1 ("Low") ("No repeat") =
      { getFrameCalls := [0, 1, 2, 3],
        imageSequenceClipCall := some ([0, 0, 0, 0], 1 / 1),
        writeGifCall := some (mkWriteGifCall 0 (7 / 2) 1 none ("No repeat") [0, 0, 0, 0]),
        result := Except.ok (output_path 0 (7 / 2)) } := by
  refine convertBody_success_eval demoClip noErr 0 (7 / 2) 1 1 ("Low") ("No repeat")
    [0, 1, 2, 3] [0, 0, 0, 0] none
    ?_ demo_captureTimes2 ?_ ?_ ?_ ?_ ?_
  · show ¬ ((0 : ℚ) ≥ 10)
    norm_num
  · simp [decodeLoop, demoClip]
  · norm_num
  · rfl
  · rfl
  · rfl

lemma demo_convert1 :
    convert_to_gif demoClip noErr 0 3 (1 / 2) (1 / 5) ("Best") ("Repeat") =
      some (output_path 0 3) := by
  unfold convert_to_gif
  rw [demo_run1]

lemma demo_convert2 :
    convert_to_gif demoClip noErr 0 (7 / 2) 1 1 ("Low") ("No repeat") =
      some (output_path 0 (7 / 2)) := by
  unfold convert_to_gif
  rw [demo_run2]

lemma output_path_eval1 : output_path 0 3 = ("temp_gifs/output_0_3.gif") := by
  rw [output_path, show pyInt 0 = 0 by norm_num [pyInt],
    show pyInt 3 = 3 by norm_num [pyInt]]
  rfl

lemma output_path_eval2 : output_path 0 (7 / 2) = ("temp_gifs/output_0_3.gif") := by
  rw [output_path, show pyInt 0 = 0 by norm_num [pyInt],
    show pyInt (7 / 2) = 3 by norm_num [pyInt]]
  rfl

/-- C4: the loop flag passed to the encode collaborator is exactly `0` for
the looping selection (`"Repeat"`) and exactly `1` for any other selection
(in particular the play-once selection `"No repeat"`); the adapter exposes
only these two values, and every `write_gif` invocation carries
`loopFlag repeat`. -/
theorem loop_flag_spec :
    loopFlag ("Repeat") = 0 ∧ loopFlag ("No repeat") = 1 ∧
    (∀ r : String, loopFlag r = 0 ∨ loopFlag r = 1) ∧
    (∀ (α : Type) (clip : VideoFileClip α)
      (writeGifRun : WriteGifCall α → Option String)
      (s d Δ p : ℚ) (q r : String) (call : WriteGifCall α),
      (convertBody clip writeGifRun s d Δ p q r).writeGifCall = some call →
      call.loop = loopFlag r) := by
  refine ⟨rfl, rfl, fun r => ?_, fun α clip wgr s d Δ p q r call h => ?_⟩
  · unfold loopFlag
    split
    · left; rfl
    · right; rfl
  · exact (convertBody_writeGifCall_inv clip wgr s d Δ p q r call h).2.2.1

/-- Witness for C4: the successful demo run with `repeat = "Repeat"` carries
loop flag `loopFlag "Repeat" = 0` in its `write_gif` call. -/
theorem loop_flag_spec_witness :
    (mkWriteGifCall 0 3 (1 / 5) (some ("-lossless")) ("Repeat") [0, 0, 0, 0, 0, 0] :
      WriteGifCall ℕ).loop = loopFlag ("Repeat") :=
  loop_flag_spec.2.2.2 ℕ demoClip noErr 0 3 (1 / 2) (1 / 5) ("Best") ("Repeat") _
    (by rw [demo_run1])

/-- C5: for a positive playback interval, the frame rate carried by the
`write_gif` invocation is exactly `1 / playback_interval`. -/
theorem playback_fps_spec {α : Type} (clip : VideoFileClip α)
    (writeGifRun : WriteGifCall α → Option String)
    (s d Δ p : ℚ) (q r : String) (call : WriteGifCall α)
    (hp : 0 < p)
    (h : (convertBody clip writeGifRun s d Δ p q r).writeGifCall = some call) :
    call.fps = 1 / p :=
  (convertBody_writeGifCall_inv clip writeGifRun s d Δ p q r call h).2.1

/-- Witness for C5: the demo run with playback interval `1/5` carries
`fps = 1 / (1/5)`. -/
theorem playback_fps_spec_witness :
    (0 : ℚ) < 1 / 5 ∧
    (mkWriteGifCall 0 3 (1 / 5) (some ("-lossless")) ("Repeat") [0, 0, 0, 0, 0, 0] :
      WriteGifCall ℕ).fps = 1 / (1 / 5) :=
  ⟨by norm_num, playback_fps_spec demoClip noErr 0 3 (1 / 2) (1 / 5) ("Best") ("Repeat") _
    (by norm_num) (by rw [demo_run1])⟩

lemma convert_some_path {α : Type} (clip : VideoFileClip α)
    (writeGifRun : WriteGifCall α → Option String)
    (s d Δ p : ℚ) (q r : String) (path : String)
    (h : convert_to_gif clip writeGifRun s d Δ p q r = some path) :
    path = output_path s d := by
  unfold convert_to_gif at h
  split at h
  · rename_i path0 hres
    injection h with h
    subst h
    obtain ⟨call, hcall, hpath, _⟩ :=
      convertBody_result_ok_inv clip writeGifRun s d Δ p q r path0 hres
    rw [hpath, (convertBody_writeGifCall_inv clip writeGifRun s d Δ p q r call hcall).1]
  · simp at h

/-- C8: any two successful conversions whose `start_time` and `duration`
truncate to the same integers return the same output path
`temp_gifs/output_{int(start_time)}_{int(duration)}.gif`; no other part of
the request (source, sample interval, playback interval, quality, repeat
selection, encode collaborator) influences the path. -/
theorem output_path_collision_spec {α β : Type}
    (clip1 : VideoFileClip α) (clip2 : VideoFileClip β)
    (wgr1 : WriteGifCall α → Option String) (wgr2 : WriteGifCall β → Option String)
    (s1 d1 Δ1 p1 : ℚ) (q1 r1 : String) (s2 d2 Δ2 p2 : ℚ) (q2 r2 : String)
    (path1 path2 : String)
    (h1 : convert_to_gif clip1 wgr1 s1 d1 Δ1 p1 q1 r1 = some path1)
    (h2 : convert_to_gif clip2 wgr2 s2 d2 Δ2 p2 q2 r2 = some path2)
    (hs : pyInt s1 = pyInt s2) (hd : pyInt d1 = pyInt d2) :
    path1 = output_path s1 d1 ∧ path2 = output_path s2 d2 ∧ path1 = path2 := by
  have e1 := convert_some_path clip1 wgr1 s1 d1 Δ1 p1 q1 r1 path1 h1
  have e2 := convert_some_path clip2 wgr2 s2 d2 Δ2 p2 q2 r2 path2 h2
  refine ⟨e1, e2, ?_⟩
  rw [e1, e2]
  unfold output_path
  rw [hs, hd]

/-- Witness for C8: two successful runs differing in duration (3 vs 7/2),
sample interval, playback interval, quality and repeat selection still
collide on `temp_gifs/output_0_3.gif`. -/
theorem output_path_collision_spec_witness :
    output_path 0 3 = output_path 0 3 ∧
    output_path 0 (7 / 2) = output_path 0 (7 / 2) ∧
    output_path 0 3 = output_path 0 (7 / 2) :=
  output_path_collision_spec demoClip demoClip noErr noErr
    0 3 (1 / 2) (1 / 5) ("Best") ("Repeat") 0 (7 / 2) 1 1 ("Low") ("No repeat")
    (output_path 0 3) (output_path 0 (7 / 2))
    demo_convert1 demo_convert2 rfl (by norm_num [pyInt])

/-- C9: `convert_to_gif` is a total function into `Option`: on any internal
exception (invalid window, decode error, zero playback interval, empty frame
list, unknown quality key, or encode error) it returns `none`, and on success
it returns `some path` where `path` is the path of the `write_gif` call that
was made and did not raise.  No exception escapes to the caller. -/
theorem option_result_total_spec {α : Type} (clip : VideoFileClip α)
    (writeGifRun : WriteGifCall α → Option String)
    (s d Δ p : ℚ) (q r : String) :
    (∃ e, (convertBody clip writeGifRun s d Δ p q r).result = Except.error e ∧
      convert_to_gif clip writeGifRun s d Δ p q r = none) ∨
    (∃ call : WriteGifCall α,
      (convertBody clip writeGifRun s d Δ p q r).writeGifCall = some call ∧
      (convertBody clip writeGifRun s d Δ p q r).result = Except.ok call.path ∧
      writeGifRun call = none ∧
      convert_to_gif clip writeGifRun s d Δ p q r = some call.path) := by
  cases hres : (convertBody clip writeGifRun s d Δ p q r).result with
  | error e =>
    left
    refine ⟨e, rfl, ?_⟩
    unfold convert_to_gif
    rw [hres]
  | ok path =>
    right
    obtain ⟨call, hcall, hpath, hw⟩ :=
      convertBody_result_ok_inv clip writeGifRun s d Δ p q r path hres
    refine ⟨call, hcall, ?_, hw, ?_⟩
    · rw [hpath]
    · unfold convert_to_gif
      rw [hres, hpath]

lemma demo_captureTimes3 : captureTimes demoClip.duration 0 3 10 = [0] := by
  show arange 0 (min ((0 : ℚ) + 3) 10) 10 = _
  rw [show min ((0 : ℚ) + 3) 10 = 3 by norm_num]
  rw [arange, show (⌈((3 : ℚ) - 0) / 10⌉) = 1 from Int.ceil_eq_iff.mpr (by norm_num)]
  simp [List.range_succ]

lemma demo_run3 :
    convertBody demoClip noErr 0 3 10 (1 / 5) ("Best") ("Repeat") =
      { getFrameCalls := [0],
        imageSequenceClipCall := some ([0], 1 / (1 / 5)),
        writeGifCall := some (mkWriteGifCall 0 3 (1 / 5) (some ("-lossless"))
          ("Repeat") [0]),
        result := Except.ok (output_path 0 3) } := by
  refine convertBody_success_eval demoClip noErr 0 3 10 (1 / 5) ("Best") ("Repeat")
    [0] [0] (some ("-lossless")) ?_ demo_captureTimes3 ?_ ?_ ?_ ?_ ?_
  · show ¬ ((0 : ℚ) ≥ 10)
    norm_num
  · simp [decodeLoop, demoClip]
  · norm_num
  · rfl
  · rfl
  · rfl

/-- Counterexample to C3: a request with
`sample_interval = 10 ≥ effective_end - start_time = 3` — the condition C3
names as yielding zero timestamps — actually yields the single timestamp
`start_time` (`np.arange(0, 3, 10) = [0]`), and `convert_to_gif` succeeds and
produces an artifact instead of failing with any empty-sequence error. -/
theorem empty_sampling_counterexample :
    (10 : ℚ) ≥ min ((0 : ℚ) + 3) 10 - 0 ∧
    captureTimes demoClip.duration 0 3 10 = [0] ∧
    convert_to_gif demoClip noErr 0 3 10 (1 / 5) ("Best") ("Repeat") =
      some ("temp_gifs/output_0_3.gif") ∧
    (convertBody demoClip noErr 0 3 10 (1 / 5) ("Best") ("Repeat")).writeGifCall ≠
      none := by
  refine ⟨by norm_num, demo_captureTimes3, ?_, ?_⟩
  · unfold convert_to_gif
    rw [demo_run3, ← output_path_eval1]
  · rw [demo_run3]
    simp

/-- C3 as amended: sampling yields zero timestamps only when
`effective_end ≤ start_time` (for a valid window and positive sample
interval this forces `duration ≤ 0`; `sample_interval ≥ effective_end -
start_time` instead yields one timestamp).  In that case `convert_to_gif`
produces no artifact, but not through any explicit empty-sequence check:
the empty frame list is passed to the encode-side collaborator
`mp.ImageSequenceClip`, whose `IndexError` the blanket `except` handler
turns into `None`. -/
theorem empty_sampling_amended {α : Type} (clip : VideoFileClip α)
    (writeGifRun : WriteGifCall α → Option String)
    (s d Δ p : ℚ) (q r : String)
    (hwin : s < clip.duration) (hΔ : 0 < Δ) (hp : p ≠ 0)
    (hempty : captureTimes clip.duration s d Δ = []) :
    (convertBody clip writeGifRun s d Δ p q r).imageSequenceClipCall =
      some ([], 1 / p) ∧
    (convertBody clip writeGifRun s d Δ p q r).result =
      Except.error (ConvError.indexError ("list index out of range")) ∧
    (convertBody clip writeGifRun s d Δ p q r).writeGifCall = none ∧
    convert_to_gif clip writeGifRun s d Δ p q r = none := by
  have hni : ¬ s ≥ clip.duration := not_le.mpr hwin
  have hrun : convertBody clip writeGifRun s d Δ p q r =
      { getFrameCalls := [], imageSequenceClipCall := some ([], 1 / p),
        writeGifCall := none,
        result := Except.error (ConvError.indexError ("list index out of range")) } := by
    unfold convertBody
    rw [if_neg hni, hempty]
    simp [decodeLoop, if_neg hp, imageSequenceClip]
  refine ⟨by rw [hrun], by rw [hrun], by rw [hrun], ?_⟩
  unfold convert_to_gif
  rw [hrun]

lemma demo_captureTimes0 : captureTimes demoClip.duration 0 0 (1 / 2) = [] := by
  show arange 0 (min ((0 : ℚ) + 0) 10) (1 / 2) = _
  rw [arange, show (⌈(min ((0 : ℚ) + 0) 10 - 0) / (1 / 2)⌉) = 0 by norm_num]
  rfl

/-- Witness for the amended C3: a zero-duration request on the demo clip. -/
theorem empty_sampling_amended_witness :
    (0 : ℚ) < 10 ∧ (0 : ℚ) < 1 / 2 ∧ ((1 / 5 : ℚ) ≠ 0) ∧
    convert_to_gif demoClip noErr 0 0 (1 / 2) (1 / 5) ("Best") ("Repeat") = none :=
  ⟨by norm_num, by norm_num, by norm_num,
    (empty_sampling_amended demoClip noErr 0 0 (1 / 2) (1 / 5) ("Best") ("Repeat")
      (by norm_num [demoClip]) (by norm_num) (by norm_num) demo_captureTimes0).2.2.2⟩

/-- Counterexample to C7: two requests failing with different originating
exceptions — the explicit `ValueError` for an invalid window, and a decode
exception — surface to the caller as the identical value `None`: the return
value of `convert_to_gif` carries neither the originating kind nor the
message (they are only logged). -/
theorem error_surface_counterexample :
    (convertBody demoClip noErr 11 1 1 1 ("Best") ("Repeat")).result =
      Except.error (ConvError.valueError ("Start time exceeds video duration")) ∧
    (convertBody failClip noErr 0 1 1 1 ("Best") ("Repeat")).result =
      Except.error (ConvError.decodeError ("decode failed")) ∧
    ConvError.valueError ("Start time exceeds video duration") ≠
      ConvError.decodeError ("decode failed") ∧
    convert_to_gif demoClip noErr 11 1 1 1 ("Best") ("Repeat") =
      convert_to_gif failClip noErr 0 1 1 1 ("Best") ("Repeat") := by
  have h1 : convertBody demoClip noErr 11 1 1 1 ("Best") ("Repeat") =
      { getFrameCalls := [], imageSequenceClipCall := none, writeGifCall := none,
        result := Except.error
          (ConvError.valueError ("Start time exceeds video duration")) } := by
    unfold convertBody
    rw [if_pos (by norm_num [demoClip] : (11 : ℚ) ≥ demoClip.duration)]
  have hct : captureTimes failClip.duration 0 1 1 = [0] := by
    show arange 0 (min ((0 : ℚ) + 1) 10) 1 = _
    rw [show min ((0 : ℚ) + 1) 10 = 1 by norm_num]
    rw [arange, show (⌈((1 : ℚ) - 0) / 1⌉) = 1 from Int.ceil_eq_iff.mpr (by norm_num)]
    simp [List.range_succ]
  have hdl : decodeLoop failClip [0] = ([0], Except.error ("decode failed")) := by
    simp [decodeLoop, failClip]
  have h2 : convertBody failClip noErr 0 1 1 1 ("Best") ("Repeat") =
      { getFrameCalls := [0], imageSequenceClipCall := none, writeGifCall := none,
        result := Except.error (ConvError.decodeError ("decode failed")) } := by
    unfold convertBody
    rw [if_neg (by norm_num [failClip] : ¬ ((0 : ℚ) ≥ failClip.duration)), hct, hdl]
  refine ⟨by rw [h1], by rw [h2], by simp, ?_⟩
  unfold convert_to_gif
  rw [h1, h2]

/-- C7 as amended: every failure inside `convert_to_gif` is non-recoverable
and never retried, and it surfaces to the caller as the single value `None`;
the originating exception kind and message are logged but are not carried by
the returned value. -/
theorem error_surface_amended {α : Type} (clip : VideoFileClip α)
    (writeGifRun : WriteGifCall α → Option String)
    (s d Δ p : ℚ) (q r : String) (e : ConvError)
    (h : (convertBody clip writeGifRun s d Δ p q r).result = Except.error e) :
    convert_to_gif clip writeGifRun s d Δ p q r = none := by
  unfold convert_to_gif
  rw [h]

/-- Witness for the amended C7: an invalid-window failure surfaces as `None`. -/
theorem error_surface_amended_witness :
    convert_to_gif demoClip noErr 12 1 1 1 ("Best") ("Repeat") = none :=
  error_surface_amended demoClip noErr 12 1 1 1 ("Best") ("Repeat")
    (ConvError.valueError ("Start time exceeds video duration"))
    (by
      unfold convertBody
      rw [if_pos (by norm_num [demoClip] : (12 : ℚ) ≥ demoClip.duration)])

lemma quality_lookup_cases (q : String) (opts : Option String)
    (h : QUALITY_SETTINGS.lookup q = some opts) :
    (q = ("Best" : String) ∧ opts = some ("-lossless")) ∨
    (q ≠ ("Best" : String) ∧ opts = none) := by
  by_cases h1 : q = ("Best" : String)
  · subst h1
    rw [show QUALITY_SETTINGS.lookup ("Best") = some (some ("-lossless")) from rfl] at h
    injection h with h
    exact Or.inl ⟨rfl, h.symm⟩
  · by_cases h2 : q = ("Good" : String)
    · subst h2
      rw [show QUALITY_SETTINGS.lookup ("Good") = some none from rfl] at h
      injection h with h
      exact Or.inr ⟨h1, h.symm⟩
    · by_cases h3 : q = ("Medium" : String)
      · subst h3
        rw [show QUALITY_SETTINGS.lookup ("Medium") = some none from rfl] at h
        injection h with h
        exact Or.inr ⟨h1, h.symm⟩
      · by_cases h4 : q = ("Low" : String)
        · subst h4
          rw [show QUALITY_SETTINGS.lookup ("Low") = some none from rfl] at h
          injection h with h
          exact Or.inr ⟨h1, h.symm⟩
        · have hb1 : (q == ("Best" : String)) = false := beq_eq_false_iff_ne.mpr h1
          have hb2 : (q == ("Good" : String)) = false := beq_eq_false_iff_ne.mpr h2
          have hb3 : (q == ("Medium" : String)) = false := beq_eq_false_iff_ne.mpr h3
          have hb4 : (q == ("Low" : String)) = false := beq_eq_false_iff_ne.mpr h4
          have hnone : QUALITY_SETTINGS.lookup q = none := by
            simp [QUALITY_SETTINGS, List.lookup, hb1, hb2, hb3, hb4]
          rw [hnone] at h
          exact absurd h (by simp)

/-- C6: the static `QUALITY_SETTINGS` table maps `Best` to the lossless
encoder option `-lossless` and `Good`/`Medium`/`Low` to no special option
(`None`); a lookup yields the lossless option exactly when the key is
`Best`; and the `opt` passed to every `write_gif` invocation is exactly the
table entry for the requested quality. -/
theorem quality_table_spec :
    QUALITY_SETTINGS.lookup ("Best") = some (some ("-lossless")) ∧
    QUALITY_SETTINGS.lookup ("Good") = some none ∧
    QUALITY_SETTINGS.lookup ("Medium") = some none ∧
    QUALITY_SETTINGS.lookup ("Low") = some none ∧
    (∀ (q : String) (opts : Option String),
      QUALITY_SETTINGS.lookup q = some opts →
      (opts = some ("-lossless") ↔ q = ("Best" : String))) ∧
    (∀ (α : Type) (clip : VideoFileClip α)
      (writeGifRun : WriteGifCall α → Option String)
      (s d Δ p : ℚ) (q r : String) (call : WriteGifCall α),
      (convertBody clip writeGifRun s d Δ p q r).writeGifCall = some call →
      QUALITY_SETTINGS.lookup q = some call.opt) := by
  refine ⟨rfl, rfl, rfl, rfl, fun q opts h => ?_, fun α clip wgr s d Δ p q r call hc =>
    (convertBody_writeGifCall_inv clip wgr s d Δ p q r call hc).2.2.2.1⟩
  rcases quality_lookup_cases q opts h with ⟨hq, hopts⟩ | ⟨hq, hopts⟩
  · subst hq
    subst hopts
    simp
  · subst hopts
    simp [hq]

/-- Witness for C6: the lookup of `Best` yields the lossless option. -/
theorem quality_table_spec_witness :
    (some ("-lossless") : Option String) = some ("-lossless") ↔
      ("Best" : String) = ("Best") :=
  quality_table_spec.2.2.2.2.1 ("Best") (some ("-lossless")) rfl

/-- C10: `validate_video` rejects (returns `False` with a message) exactly
when no file was uploaded or the file size exceeds `200 * 1024 * 1024`
bytes, and accepts with `(True, "")` in every other case.  The source reads
only `video_file is None` and `video_file.size`, so the function is embedded
as a pure function of the optional size: it performs no modification of the
file. -/
theorem validate_video_spec (video_file : Option ℕ) :
    ((validate_video video_file).1 = false ↔
      video_file = none ∨
        ∃ size, video_file = some size ∧ size > 200 * 1024 * 1024) ∧
    ((validate_video video_file).1 = true → validate_video video_file = (true, (""))) ∧
    (video_file = none →
      validate_video video_file = (false, ("Please upload a video file."))) ∧
    (∀ size, video_file = some size → size > 200 * 1024 * 1024 →
      validate_video video_file =
        (false, ("File size too large. Please upload a video smaller than 200MB."))) := by
  cases video_file with
  | none =>
    refine ⟨by simp [validate_video], by simp [validate_video], fun _ => rfl, ?_⟩
    intro size h
    simp at h
  | some size =>
    by_cases hs : size > 200 * 1024 * 1024
    · refine ⟨by simp [validate_video, hs], by simp [validate_video, hs], ?_, ?_⟩
      · intro h
        simp at h
      · intro sz h hsz
        injection h with h
        subst h
        simp [validate_video, hsz]
    · refine ⟨by simp [validate_video, hs], fun _ => by simp [validate_video, hs], ?_, ?_⟩
      · intro h
        simp at h
      · intro sz h hsz
        injection h with h
        subst h
        exact absurd hsz hs

/-- Witness for C10: a missing upload is rejected. -/
theorem validate_video_spec_witness : (validate_video none).1 = false :=
  (validate_video_spec none).1.mpr (Or.inl rfl)
